import Mathlib

/-!
# Verification of the DLRScanner resumable checkpointed batch-processing core

Shallow embedding, in Lean 4, of the checkpoint / progress-tracking /
batch-upload core of the DLRScanner repository:

* `src/progress_tracker.py` — `ProgressTracker` (checkpoint data, atomic
  save, load, `mark_processed`, `mark_failed`, `get_remaining_files`,
  `update_statistics`);
* `src/batch_uploader.py` — `BatchUploader` (`_retry_with_backoff`,
  `upload_in_batches`, upload checkpoint handling);
* `bulk_process_emails.py` — `BulkEmailProcessor.parse_phase` (phase-1
  orchestration loop).

Python `os.path.normpath` is kept abstract: every definition that
normalizes identifiers is parameterized by a function `norm : String →
String`, so that the theorems hold for the actual path-canonicalizer.
Python dicts of counters are modeled as association lists with
`dict.update` semantics.  I/O (the filesystem, the remote uploader,
timestamps) is injected: file contents are explicit values, the per-batch
upload collaborator is an explicit function, and exception outcomes are
explicit alternatives, so the error-handling paths of the source are all
represented.
-/

namespace DLRScanner

/-- A Python `dict[str, number]` of counters, as an association list in
insertion order (sufficient for lookup semantics). -/
abbrev StatDict := List (String × Int)

/-- Lookup of a key in a dict (first binding wins; a well-formed dict has
at most one binding per key). -/
def dictGet (d : StatDict) (k : String) : Option Int :=
  (d.find? (fun p => p.1 = k)).map Prod.snd

/-- Python `d[k] = v`: overwrite the binding if `k` is present, otherwise
append a new binding. -/
def dictSet (d : StatDict) (k : String) (v : Int) : StatDict :=
  if d.any (fun p => p.1 = k) then
    d.map (fun p => if p.1 = k then (k, v) else p)
  else d ++ [(k, v)]

/-- Python `d.update(delta)`: set every binding of `delta` into `d`, in
order. -/
def dictUpdate (d delta : StatDict) : StatDict :=
  delta.foldl (fun acc kv => dictSet acc kv.1 kv.2) d

/-- The value the last binding of `k` in `delta` assigns, if any
(`dict.update` applies bindings left to right, so a later duplicate
wins). -/
def lastBinding (delta : StatDict) (k : String) : Option Int :=
  (delta.reverse.find? (fun p => p.1 = k)).map Prod.snd

/-- One entry of the `failed_files` audit trail
(`ProgressTracker.mark_failed` appends `{"path": …, "error": …,
"timestamp": …}`). -/
structure FailedFile where
  path : String
  error : String
  timestamp : String
deriving Repr, DecidableEq

/-- The parse-phase checkpoint document
(`ProgressTracker._initialize_checkpoint` fixes this shape). -/
structure Checkpoint where
  phase : String
  total_files : Nat
  processed_files : Nat
  processed_file_paths : List String
  failed_files : List FailedFile
  last_updated : String
  statistics : StatDict
deriving Repr, DecidableEq

/-- `ProgressTracker._initialize_checkpoint`: the fresh checkpoint
structure (`now` stands for `datetime.now().isoformat()`). -/
def initialize_checkpoint (now : String) : Checkpoint :=
  { phase := "parse"
    total_files := 0
    processed_files := 0
    processed_file_paths := []
    failed_files := []
    last_updated := now
    statistics :=
      [("emails_read", 0), ("articles_extracted", 0),
       ("entities_extracted", 0), ("entities_matched", 0)] }

/-- `ProgressTracker.is_processed`: normalize the query path and every
stored path, then test membership. -/
def is_processed (norm : String → String) (cp : Checkpoint) (file_path : String) : Bool :=
  (cp.processed_file_paths.map norm).contains (norm file_path)

/-- `ProgressTracker.mark_processed`: append the raw path only when
`is_processed` is false, then recompute `processed_files` as the length
of `processed_file_paths`. -/
def mark_processed (norm : String → String) (cp : Checkpoint) (file_path : String) : Checkpoint :=
  if is_processed norm cp file_path then cp
  else
    let paths := cp.processed_file_paths ++ [file_path]
    { cp with processed_file_paths := paths, processed_files := paths.length }

/-- `ProgressTracker.mark_failed`: append `{path, error, timestamp}` to
`failed_files`; nothing else is touched. -/
def mark_failed (cp : Checkpoint) (file_path error ts : String) : Checkpoint :=
  { cp with failed_files := cp.failed_files ++ [⟨file_path, error, ts⟩] }

/-- `ProgressTracker.get_remaining_files`: keep, in input order, the
files whose normalized path is not among the normalized processed
paths. -/
def get_remaining_files (norm : String → String) (cp : Checkpoint)
    (all_files : List String) : List String :=
  all_files.filter (fun f => ¬ (cp.processed_file_paths.map norm).contains (norm f))

/-- `ProgressTracker.update_statistics`: Python `dict.update` of the
delta into `statistics` (per-key overwrite, not addition). -/
def update_statistics (cp : Checkpoint) (stats : StatDict) : Checkpoint :=
  { cp with statistics := dictUpdate cp.statistics stats }

/-! ## Checkpoint store: atomic save and load

`ProgressTracker.save_checkpoint` serializes into a
`tempfile.NamedTemporaryFile` created in the checkpoint's directory and
then `shutil.move`s it onto the path.  The filesystem is modeled as the
content of the checkpoint path plus the content of the would-be temp
file in that same directory; the possible I/O exceptions are the
injected `SaveOutcome` alternatives. -/

/-- Serialization of a checkpoint (stands for `json.dump(...)`; the
claims depend only on which serialized document is on disk, not on the
byte format). -/
def serialize (cp : Checkpoint) : String := reprStr cp

/-- The two files of the checkpoint directory that `save_checkpoint`
touches: the checkpoint path itself and the temp file next to it
(`none` = file absent). -/
structure FS where
  checkpointFile : Option String
  tempFile : Option String
deriving Repr, DecidableEq

/-- Injected I/O behavior of one `save_checkpoint` call: everything
succeeds; `json.dump` raises mid-write with `tmpContent` the bytes the
`delete=False` temp file holds at that point; or `shutil.move` raises,
with `removeSucceeds` telling whether the subsequent
`os.remove(tmp_path)` of the cleanup (itself wrapped in a bare
`try/except: pass`) succeeds. -/
inductive SaveOutcome where
  | ok
  | failTempWrite (tmpContent : String)
  | failRename (removeSucceeds : Bool)
deriving Repr, DecidableEq

/-- Result of `save_checkpoint`: the filesystem afterwards, the
exception propagated to the caller (if any), and the in-memory
`checkpoint_data` afterwards. -/
structure SaveResult where
  fs : FS
  raised : Option String
  memData : Checkpoint
deriving Repr, DecidableEq

/-- `ProgressTracker.save_checkpoint`: stamp `last_updated`, write the
serialized document to a temp file in the checkpoint's directory, rename
it onto the path.  The `except` block catches any exception, logs, runs
the guarded cleanup, and returns normally (`raised := none` on every
branch: the error is swallowed, never re-raised).  `tmp_path` is
assigned only after `json.dump` returns, so when the dump itself raises
the `'tmp_path' in locals()` guard is false, the cleanup is skipped, and
the partially written temp file stays on disk; when the rename raises,
`tmp_path` is bound and `os.remove` is attempted, succeeding or not. -/
def save_checkpoint (cp : Checkpoint) (now : String) (fs : FS) (io : SaveOutcome) : SaveResult :=
  let cp := { cp with last_updated := now }
  match io with
  | .ok =>
      -- temp written then atomically renamed onto the path
      { fs := { checkpointFile := some (serialize cp), tempFile := none }
        raised := none, memData := cp }
  | .failTempWrite tmpContent =>
      -- exception during `json.dump`: `tmp_path` was never assigned, the
      -- cleanup guard fails, and the half-written temp file remains; the
      -- checkpoint path was never touched
      { fs := { checkpointFile := fs.checkpointFile, tempFile := some tmpContent }
        raised := none, memData := cp }
  | .failRename removeSucceeds =>
      -- temp fully written, rename raised: the cleanup attempts
      -- `os.remove(tmp_path)` (tolerating its failure); the checkpoint
      -- path still holds its previous content
      { fs := { checkpointFile := fs.checkpointFile
                tempFile := if removeSucceeds then none else some (serialize cp) }
        raised := none, memData := cp }

/-- What `load_checkpoint` finds at `checkpoint_path`: no file, a file
`json.load` raises on, or a file deserializing to a checkpoint. -/
inductive FileState where
  | missing
  | corrupt (raw : String)
  | valid (cp : Checkpoint)
deriving Repr, DecidableEq

/-- Result of `load_checkpoint`: the returned dict, the in-memory
`checkpoint_data` afterwards, and the exception propagated to the caller
(if any). -/
structure LoadResult where
  returned : Checkpoint
  memData : Checkpoint
  raised : Option String
deriving Repr, DecidableEq

/-- `ProgressTracker.load_checkpoint` (`cur` is the tracker's current
`checkpoint_data`): on a parseable file the data is stored and returned;
on a parse exception the handler logs and returns a fresh
`_initialize_checkpoint()` (without assigning `checkpoint_data`); on a
missing file likewise.  No branch raises. -/
def load_checkpoint (cur : Checkpoint) (file : FileState) (now : String) : LoadResult :=
  match file with
  | .valid data => { returned := data, memData := data, raised := none }
  | .corrupt _ => { returned := initialize_checkpoint now, memData := cur, raised := none }
  | .missing => { returned := initialize_checkpoint now, memData := cur, raised := none }

/-! ## Batch uploader (`src/batch_uploader.py`)

The per-batch collaborator (`DealCloudUploader.upload_articles` wrapped
by `_upload_batch`, which converts an exception into an all-failed stats
dict) is injected as a function from the attempt number to the stats
dict it reports.  `success_rate` is a Python float computed as
`uploaded / total * 100`; it is modeled as a rational. -/

/-- The stats dict `_upload_batch` returns for one attempt
(`total_articles`, `uploaded`, `failed`, `success_rate`, optional
`error`; `entry_ids` is never read by the batch uploader). -/
structure UploadStats where
  total_articles : Nat
  uploaded : Nat
  failed : Nat
  success_rate : ℚ
  error : Option String
deriving Repr, DecidableEq

/-- The success test of `_retry_with_backoff`:
`stats.get('uploaded', 0) > 0 or stats.get('success_rate', 0) > 0`. -/
def attempt_succeeded (s : UploadStats) : Bool :=
  0 < s.uploaded || 0 < s.success_rate

/-- Trace of one `_retry_with_backoff` call: the stats dict returned,
the attempt numbers actually executed, and the backoff delays actually
slept (in seconds, in order). -/
structure RetryTrace where
  result : UploadStats
  attempts : List Nat
  sleeps : List Nat
deriving Repr, DecidableEq

/-- The `for attempt in range(max_retries)` loop of
`_retry_with_backoff`, over the list of remaining attempt numbers:
before attempt `a > 0` sleep `a * 2` seconds; call `_upload_batch`; stop
on success; after the last attempt return the last stats dict either
way.  An empty attempt list yields `none` (in the source,
`max_retries = 0` leaves `stats` unbound and the final
`return stats` raises). -/
def retry_loop (f : Nat → UploadStats) : List Nat → Option RetryTrace
  | [] => none
  | a :: rest =>
    let d : List Nat := if a = 0 then [] else [a * 2]
    let s := f a
    if attempt_succeeded s then
      some { result := s, attempts := [a], sleeps := d }
    else
      match retry_loop f rest with
      | none => some { result := s, attempts := [a], sleeps := d }
      | some t => some { result := t.result, attempts := a :: t.attempts, sleeps := d ++ t.sleeps }

/-- `BatchUploader._retry_with_backoff` for one batch, where `f a` is
what `_upload_batch` reports on attempt `a`. -/
def retry_with_backoff (f : Nat → UploadStats) (max_retries : Nat) : Option RetryTrace :=
  retry_loop f (List.range max_retries)

/-- The nested `statistics` dict of the upload checkpoint. -/
structure UploadStatistics where
  successful_uploads : Nat
  failed_uploads : Nat
  batches_completed : Nat
  batches_failed : Nat
deriving Repr, DecidableEq

/-- One entry of `failed_batches`
(`{"batch_num": …, "error": …, "timestamp": …}`). -/
structure FailedBatch where
  batch_num : Int
  error : String
  timestamp : String
deriving Repr, DecidableEq

/-- The upload checkpoint document
(`BatchUploader._initialize_upload_checkpoint` fixes this shape). -/
structure UploadCheckpoint where
  total_articles : Nat
  uploaded_articles : Nat
  current_batch : Int
  last_successful_batch : Int
  failed_batches : List FailedBatch
  last_updated : String
  statistics : UploadStatistics
deriving Repr, DecidableEq

/-- `BatchUploader._initialize_upload_checkpoint`. -/
def initialize_upload_checkpoint (total_articles : Nat) (now : String) : UploadCheckpoint :=
  { total_articles := total_articles
    uploaded_articles := 0
    current_batch := 0
    last_successful_batch := -1
    failed_batches := []
    last_updated := now
    statistics :=
      { successful_uploads := 0, failed_uploads := 0
        batches_completed := 0, batches_failed := 0 } }

/-- The per-batch checkpoint update of `upload_in_batches` (lines
252–275): set `current_batch`; add the reported `uploaded`/`failed`
counts; on `uploaded > 0` advance `last_successful_batch` and
`batches_completed`, otherwise count the batch failed and append it to
`failed_batches` with the stats dict's error (default
`"Unknown error"`). -/
def record_batch_outcome (cp : UploadCheckpoint) (batch_num : Int) (stats : UploadStats)
    (ts : String) : UploadCheckpoint :=
  let cp := { cp with current_batch := batch_num }
  let cp :=
    { cp with
      uploaded_articles := cp.uploaded_articles + stats.uploaded
      statistics :=
        { cp.statistics with
          successful_uploads := cp.statistics.successful_uploads + stats.uploaded
          failed_uploads := cp.statistics.failed_uploads + stats.failed } }
  if 0 < stats.uploaded then
    { cp with
      last_successful_batch := batch_num
      statistics :=
        { cp.statistics with batches_completed := cp.statistics.batches_completed + 1 } }
  else
    { cp with
      statistics :=
        { cp.statistics with batches_failed := cp.statistics.batches_failed + 1 }
      failed_batches :=
        cp.failed_batches ++
          [{ batch_num := batch_num, error := stats.error.getD "Unknown error", timestamp := ts }] }

/-- The `for batch_num in range(start_batch, total_batches)` loop of
`upload_in_batches`, by recursion on the number of remaining batches.
`f b a` is the stats dict `_upload_batch` reports for batch `b` on
attempt `a`.  Returns the sequence of checkpoint states persisted after
each batch (the checkpoint is saved every batch) and the final state;
`none` only when a `_retry_with_backoff` call would raise (empty retry
range). -/
def upload_loop (max_retries : Nat) (f : Int → Nat → UploadStats) (ts : String) :
    UploadCheckpoint → Int → Nat → Option (List UploadCheckpoint × UploadCheckpoint)
  | cp, _, 0 => some ([], cp)
  | cp, b, n + 1 =>
    match retry_with_backoff (f b) max_retries with
    | none => none
    | some t =>
      let cp' := record_batch_outcome cp b t.result ts
      match upload_loop max_retries f ts cp' (b + 1) n with
      | none => none
      | some (hist, cpF) => some (cp' :: hist, cpF)

/-- Result of one `upload_in_batches` run: the checkpoint the run
started from, the first batch index of the loop, the number of batches
of the workload, every checkpoint state persisted (one per processed
batch, in order), and the final checkpoint. -/
structure UploadRun where
  initial : UploadCheckpoint
  start_batch : Int
  total_batches : Nat
  history : List UploadCheckpoint
  final : UploadCheckpoint
deriving Repr, DecidableEq

/-- The checkpoint-initialization preamble of `upload_in_batches` (lines
226–239): when `resume` and the checkpoint file loaded
(`_load_upload_checkpoint` returns `None` both when the file is missing
and when parsing raises — `loaded = none` covers both), start at
`last_successful_batch + 1` with the loaded checkpoint; otherwise start
fresh from batch 0 with an initialized checkpoint. -/
def upload_start (resume : Bool) (loaded : Option UploadCheckpoint)
    (total_articles : Nat) (ts : String) : UploadCheckpoint × Int :=
  if resume then
    match loaded with
    | some c => (c, c.last_successful_batch + 1)
    | none => (initialize_upload_checkpoint total_articles ts, 0)
  else (initialize_upload_checkpoint total_articles ts, 0)

/-- `BatchUploader.upload_in_batches` on a workload of `total_articles`
records.  Batches partition the workload into `ceil(total / batch_size)`
groups; the loop runs from `start_batch` to `total_batches - 1`.  `none`
when `batch_size = 0` (a `ZeroDivisionError` in the source) or a retry
call would raise. -/
def upload_in_batches (total_articles batch_size max_retries : Nat)
    (f : Int → Nat → UploadStats) (resume : Bool) (loaded : Option UploadCheckpoint)
    (ts : String) : Option UploadRun :=
  if batch_size = 0 then none
  else
    let s := upload_start resume loaded total_articles ts
    let total_batches := (total_articles + batch_size - 1) / batch_size
    -- number of loop iterations of `range(start_batch, total_batches)`
    let iters := ((total_batches : Int) - s.2).toNat
    (upload_loop max_retries f ts s.1 s.2 iters).map
      (fun r =>
        { initial := s.1, start_batch := s.2, total_batches := total_batches
          history := r.1, final := r.2 })

/-! ## Phase-1 orchestrator (`bulk_process_emails.py`, `parse_phase`)

The per-file pipeline (read → parse → extract entities → validate →
prepare) is the injected collaborator: for each file it either yields
the prepared articles to be written, yields no articles (the parser
returned an empty list: the file is marked processed and skipped), or
raises (the file is marked failed).  An article is represented by its
entity-list lengths, which is all the orchestrator reads from it. -/

/-- What `parse_phase` reads from one prepared article: the sizes of its
`Hotels` / `Companies` / `Contacts` entity lists. -/
structure Article where
  hotels : Nat
  companies : Nat
  contacts : Nat
deriving Repr, DecidableEq

/-- Outcome of the per-file collaborator pipeline for one file. -/
inductive FileOutcome where
  | articles (recs : List Article)
  | noArticles
  | raised (msg : String)
deriving Repr, DecidableEq

/-- `BulkEmailProcessor.CHECKPOINT_SAVE_INTERVAL`. -/
def CHECKPOINT_SAVE_INTERVAL : Nat := 10

/-- The statistics delta `parse_phase` passes to `update_statistics`
(both at the periodic saves and at the end): the running counters
derived from the files processed and the articles written so far. -/
def parse_stats_delta (files_processed : Nat) (written : List Article) : StatDict :=
  [("emails_read", files_processed),
   ("articles_extracted", written.length),
   ("hotels_extracted", ((written.map Article.hotels).sum : Nat)),
   ("companies_extracted", ((written.map Article.companies).sum : Nat)),
   ("contacts_extracted", ((written.map Article.contacts).sum : Nat))]

/-- Mutable state of the `for i, file_path in enumerate(remaining_files)`
loop: the tracker's checkpoint, the articles appended to the output file
so far this run, and the `files_processed` counter. -/
structure ParseState where
  cp : Checkpoint
  written : List Article
  files_processed : Nat
deriving Repr, DecidableEq

/-- One iteration of the `parse_phase` loop body: on an exception mark
the file failed and continue; on an empty parse mark it processed and
continue; otherwise append the prepared articles to the output file,
mark the file processed, bump `files_processed`, and every
`CHECKPOINT_SAVE_INTERVAL` successful files push the running statistics
into the checkpoint and save it (`save_checkpoint` also stamps
`last_updated`). -/
def parse_step (norm : String → String) (outcome : String → FileOutcome) (ts : String)
    (st : ParseState) (file_path : String) : ParseState :=
  match outcome file_path with
  | .raised msg => { st with cp := mark_failed st.cp file_path msg ts }
  | .noArticles => { st with cp := mark_processed norm st.cp file_path }
  | .articles recs =>
    let written := st.written ++ recs
    let cp := mark_processed norm st.cp file_path
    let fp := st.files_processed + 1
    let cp :=
      if fp % CHECKPOINT_SAVE_INTERVAL = 0 then
        { update_statistics cp (parse_stats_delta fp written) with last_updated := ts }
      else cp
    { cp := cp, written := written, files_processed := fp }

/-- Result of one `parse_phase` run: the remaining-file list it
computed, the records it appended to the output JSON array, the final
checkpoint, and the `files_processed` counter. -/
structure ParseRun where
  remaining : List String
  written : List Article
  tracker : Checkpoint
  files_processed : Nat
deriving Repr, DecidableEq

/-- `BulkEmailProcessor.parse_phase` on a scanned workload `all_files`
(`loaded` is what `tracker.load_checkpoint()` yields when `resume`;
without `resume` the tracker is `reset()` to a fresh checkpoint).
Remaining work is `get_remaining_files` only when resuming; then
`total_files` is set and the checkpoint saved.  An empty remaining list
returns before the output file is even opened, so nothing is written;
otherwise the loop runs and a final `update_statistics` + save
follows. -/
def parse_phase (norm : String → String) (outcome : String → FileOutcome)
    (loaded : Checkpoint) (all_files : List String) (resume : Bool) (ts : String) : ParseRun :=
  let cp := if resume then loaded else initialize_checkpoint ts
  let remaining := if resume then get_remaining_files norm cp all_files else all_files
  let cp := { cp with total_files := all_files.length, last_updated := ts }
  if remaining.isEmpty then
    { remaining := remaining, written := [], tracker := cp, files_processed := 0 }
  else
    let st := remaining.foldl (parse_step norm outcome ts) ⟨cp, [], 0⟩
    let cpF :=
      { update_statistics st.cp (parse_stats_delta st.files_processed st.written) with
        last_updated := ts }
    { remaining := remaining, written := st.written, tracker := cpF
      files_processed := st.files_processed }

/-! ## Helper lemmas -/

/-- Left-biased combination of optional values (`a` overrides `b`). -/
def overlay (a b : Option Int) : Option Int :=
  match a with
  | some v => some v
  | none => b

lemma dictGet_nil (k : String) : dictGet [] k = none := rfl

lemma dictGet_cons (p : String × Int) (rest : StatDict) (k : String) :
    dictGet (p :: rest) k = if p.1 = k then some p.2 else dictGet rest k := by
  unfold dictGet
  by_cases hp : p.1 = k <;> simp [List.find?, hp]

lemma overlay_none_right (a : Option Int) : overlay a none = a := by
  cases a <;> rfl

lemma dictGet_append (d₁ d₂ : StatDict) (k : String) :
    dictGet (d₁ ++ d₂) k = overlay (dictGet d₁ k) (dictGet d₂ k) := by
  induction d₁ with
  | nil => simp [dictGet_nil, overlay]
  | cons p rest ih =>
    by_cases hp : p.1 = k <;> simp [dictGet_cons, hp, ih, overlay]

lemma dictGet_eq_none_of_not_any (d : StatDict) (k : String)
    (h : ¬ d.any (fun p => p.1 = k)) : dictGet d k = none := by
  induction d with
  | nil => rfl
  | cons p rest ih =>
    simp only [List.any_cons, Bool.or_eq_true, decide_eq_true_eq] at h
    push_neg at h
    rw [dictGet_cons, if_neg h.1]
    exact ih h.2

lemma dictGet_map_set (d : StatDict) (k : String) (v : Int) (k' : String) (h : k' ≠ k) :
    dictGet (d.map (fun p => if p.1 = k then (k, v) else p)) k' = dictGet d k' := by
  induction d with
  | nil => rfl
  | cons p rest ih =>
    by_cases hp : p.1 = k
    · have hkk : ¬ (k = k') := fun e => h e.symm
      have hpk : ¬ (p.1 = k') := by rw [hp]; exact hkk
      simp only [List.map_cons, hp, if_true, dictGet_cons, if_neg hkk, if_neg hpk]
      exact ih
    · by_cases hp' : p.1 = k'
      · simp only [List.map_cons, if_neg hp, dictGet_cons, if_pos hp']
      · simp only [List.map_cons, if_neg hp, dictGet_cons, if_neg hp']
        exact ih

lemma dictGet_dictSet_self (d : StatDict) (k : String) (v : Int) :
    dictGet (dictSet d k v) k = some v := by
  unfold dictSet
  by_cases h : d.any (fun p => p.1 = k)
  · simp only [h, if_true]
    induction d with
    | nil => simp at h
    | cons p rest ih =>
      by_cases hp : p.1 = k
      · simp [dictGet_cons, hp]
      · simp only [List.any_cons, Bool.or_eq_true, decide_eq_true_eq] at h
        rcases h with h | h
        · exact absurd h hp
        · simp only [List.map_cons, hp, if_false, dictGet_cons, if_neg hp]
          exact ih (by simpa using h)
  · rw [if_neg h, dictGet_append, dictGet_eq_none_of_not_any d k h]
    simp [overlay, dictGet_cons]

lemma dictGet_dictSet_ne (d : StatDict) (k : String) (v : Int) (k' : String)
    (h : k' ≠ k) : dictGet (dictSet d k v) k' = dictGet d k' := by
  unfold dictSet
  by_cases hany : d.any (fun p => p.1 = k)
  · simp only [hany, if_true]
    exact dictGet_map_set d k v k' h
  · rw [if_neg hany, dictGet_append]
    have hsingle : dictGet [(k, v)] k' = none := by
      rw [dictGet_cons, if_neg (fun e : k = k' => h e.symm)]
      rfl
    rw [hsingle, overlay_none_right]

lemma lastBinding_cons (k₀ : String) (v₀ : Int) (rest : StatDict) (k : String) :
    lastBinding ((k₀, v₀) :: rest) k
      = overlay (lastBinding rest k) (if k₀ = k then some v₀ else none) := by
  unfold lastBinding overlay
  simp only [List.reverse_cons, List.find?_append]
  cases hr : rest.reverse.find? (fun p => decide (p.1 = k)) with
  | none =>
    by_cases hk : k₀ = k <;> simp [List.find?, hk]
  | some p => simp

/-- `dict.update` lookup semantics: the last binding of the delta wins,
otherwise the original dict's binding. -/
lemma dictGet_dictUpdate (d delta : StatDict) (k : String) :
    dictGet (dictUpdate d delta) k = overlay (lastBinding delta k) (dictGet d k) := by
  induction delta generalizing d with
  | nil => simp [dictUpdate, lastBinding, overlay]
  | cons kv rest ih =>
    obtain ⟨k₀, v₀⟩ := kv
    have hstep : dictUpdate d ((k₀, v₀) :: rest) = dictUpdate (dictSet d k₀ v₀) rest := rfl
    rw [hstep, ih, lastBinding_cons]
    by_cases hk : k₀ = k
    · subst hk
      rw [dictGet_dictSet_self]
      cases lastBinding rest k₀ <;> simp [overlay]
    · rw [dictGet_dictSet_ne d k₀ v₀ k (fun hkk => hk hkk.symm)]
      cases lastBinding rest k <;> simp [overlay, hk]

lemma is_processed_iff (norm : String → String) (cp : Checkpoint) (p : String) :
    is_processed norm cp p = true ↔ norm p ∈ cp.processed_file_paths.map norm := by
  simp [is_processed, List.elem_iff]

lemma mem_paths_mark_processed_self (norm : String → String) (cp : Checkpoint) (p : String) :
    norm p ∈ (mark_processed norm cp p).processed_file_paths.map norm := by
  unfold mark_processed
  by_cases h : is_processed norm cp p
  · rw [if_pos h]
    exact (is_processed_iff norm cp p).mp h
  · rw [if_neg h]
    simp

lemma mem_paths_mark_processed_mono (norm : String → String) (cp : Checkpoint) (p x : String)
    (h : x ∈ cp.processed_file_paths.map norm) :
    x ∈ (mark_processed norm cp p).processed_file_paths.map norm := by
  unfold mark_processed
  by_cases hp : is_processed norm cp p
  · rwa [if_pos hp]
  · rw [if_neg hp]
    simp only [List.map_append, List.mem_append]
    exact Or.inl h

lemma mem_remaining_iff (norm : String → String) (cp : Checkpoint)
    (all_files : List String) (f : String) :
    f ∈ get_remaining_files norm cp all_files ↔
      f ∈ all_files ∧ norm f ∉ cp.processed_file_paths.map norm := by
  simp [get_remaining_files, List.mem_filter, List.elem_iff]

lemma is_processed_mark_processed (norm : String → String) (cp : Checkpoint) (p : String) :
    is_processed norm (mark_processed norm cp p) p = true :=
  (is_processed_iff norm _ p).mpr (mem_paths_mark_processed_self norm cp p)

/-! ## Claim theorems -/

/-- C1 (counterexample): a `save_checkpoint` call in which `json.dump`
raises mid-write leaves the on-disk checkpoint unchanged — but, contrary
to the claim, surfaces no error to the caller (the `except` handler
swallows the exception and the call returns normally, `raised = none`)
and does not remove the temp file: `tmp_path` is assigned only after
`json.dump` returns, so the `'tmp_path' in locals()` cleanup guard is
false and the half-written temp file stays on disk. -/
theorem save_checkpoint_failure_counterexample :
    (save_checkpoint (initialize_checkpoint "t0") "t1"
        { checkpointFile := some "prev", tempFile := none }
        (SaveOutcome.failTempWrite "half")).raised = none ∧
    (save_checkpoint (initialize_checkpoint "t0") "t1"
        { checkpointFile := some "prev", tempFile := none }
        (SaveOutcome.failTempWrite "half")).fs.checkpointFile = some "prev" ∧
    (save_checkpoint (initialize_checkpoint "t0") "t1"
        { checkpointFile := some "prev", tempFile := none }
        (SaveOutcome.failTempWrite "half")).fs.tempFile = some "half" :=
  ⟨rfl, rfl, rfl⟩

/-- C1 (amended): `save_checkpoint` writes the serialized document to a
temp file in the checkpoint's directory and atomically renames it onto
the path; on any I/O failure the on-disk checkpoint is unchanged, but
the error is only logged and swallowed, never surfaced to the caller (no
branch raises), and the temp file is removed only when the failure
occurred at the rename (where `tmp_path` is already bound) and the
`os.remove` itself succeeds — a failure during the temp write leaves the
partially written temp file on disk. -/
theorem save_checkpoint_atomic_semantics (cp : Checkpoint) (now : String) (fs : FS)
    (io : SaveOutcome) :
    (save_checkpoint cp now fs SaveOutcome.ok).fs.checkpointFile
        = some (serialize { cp with last_updated := now }) ∧
    (save_checkpoint cp now fs SaveOutcome.ok).fs.tempFile = none ∧
    (io ≠ SaveOutcome.ok →
        (save_checkpoint cp now fs io).fs.checkpointFile = fs.checkpointFile) ∧
    (∀ tmpContent,
        (save_checkpoint cp now fs (SaveOutcome.failTempWrite tmpContent)).fs.tempFile
          = some tmpContent) ∧
    (save_checkpoint cp now fs (SaveOutcome.failRename true)).fs.tempFile = none ∧
    (save_checkpoint cp now fs (SaveOutcome.failRename false)).fs.tempFile
        = some (serialize { cp with last_updated := now }) ∧
    (save_checkpoint cp now fs io).raised = none := by
  refine ⟨rfl, rfl, ?_, fun tmpContent => rfl, rfl, rfl, ?_⟩
  · intro h
    cases io with
    | ok => exact absurd rfl h
    | failTempWrite tmpContent => exact rfl
    | failRename removeSucceeds => exact rfl
  · cases io <;> rfl

/-- Witness for `save_checkpoint_atomic_semantics` at a concrete failing
call: a mid-dump failure leaves the prior on-disk checkpoint intact. -/
theorem save_checkpoint_atomic_semantics_witness :
    (save_checkpoint (initialize_checkpoint "t0") "t1"
        { checkpointFile := some "prev", tempFile := none }
        (SaveOutcome.failTempWrite "half")).fs.checkpointFile = some "prev" :=
  (save_checkpoint_atomic_semantics (initialize_checkpoint "t0") "t1"
      { checkpointFile := some "prev", tempFile := none }
      (SaveOutcome.failTempWrite "half")).2.2.1 (by decide)

/-- C2 (counterexample): with `statistics = {"emails_read": 5}`, merging
the delta `{"emails_read": 3}` stores `3`, which is smaller than the
previously stored `5`: `update_statistics` replaces values instead of
accumulating them monotonically. -/
theorem update_statistics_counterexample :
    dictGet (update_statistics
        { initialize_checkpoint "t0" with statistics := [("emails_read", 5)] }
        [("emails_read", 3)]).statistics "emails_read" = some 3 ∧ (3 : Int) < 5 := by
  exact ⟨rfl, by norm_num⟩

/-- C2 (amended): `update_statistics` performs a Python `dict.update` of
the delta into `statistics`: every key of the delta is overwritten with
the delta's (last) value for it — regardless of the previously stored
value — and keys absent from the delta are unchanged.  Monotonic
accumulation is not enforced by the merge itself. -/
theorem update_statistics_overwrite_semantics (cp : Checkpoint) (delta : StatDict)
    (k : String) :
    dictGet (update_statistics cp delta).statistics k
      = overlay (lastBinding delta k) (dictGet cp.statistics k) :=
  dictGet_dictUpdate cp.statistics delta k

/-- C3: `get_remaining_files` returns exactly the input files whose
normalized path is not among the normalized processed paths, as an
order-preserving sublist of the input; and after `mark_processed k`, no
file normalizing like `k` ever appears in the remaining list. -/
theorem get_remaining_files_spec (norm : String → String) (cp : Checkpoint)
    (all_files : List String) (k : String) :
    (get_remaining_files norm cp all_files).Sublist all_files ∧
    (∀ f, f ∈ get_remaining_files norm cp all_files ↔
        f ∈ all_files ∧ norm f ∉ cp.processed_file_paths.map norm) ∧
    (∀ k', norm k' = norm k →
        k' ∉ get_remaining_files norm (mark_processed norm cp k) all_files) := by
  refine ⟨List.filter_sublist _, fun f => mem_remaining_iff norm cp all_files f, ?_⟩
  intro k' hk hmem
  rw [mem_remaining_iff] at hmem
  exact hmem.2 (by rw [hk]; exact mem_paths_mark_processed_self norm cp k)

/-- Witness for `get_remaining_files_spec`: after marking the file
visible under another spelling, the equivalent id is excluded. -/
theorem get_remaining_files_spec_witness :
    "a" ∉ get_remaining_files (fun s => if s = "..a" then "a" else s)
        (mark_processed (fun s => if s = "..a" then "a" else s)
          (initialize_checkpoint "t") "..a") ["a", "b"] :=
  (get_remaining_files_spec (fun s => if s = "..a" then "a" else s)
      (initialize_checkpoint "t") ["a", "b"] "..a").2.2 "a" (by decide)

/-- C7: `mark_processed` is idempotent; it returns the checkpoint
unchanged when the id is already present under normalization, appends
the raw id otherwise, and — given the data-model invariant that the
stored ids are distinct under normalization with a consistent counter —
recomputes `processed_files` to the number of distinct processed
ids. -/
theorem mark_processed_idempotent (norm : String → String) (cp : Checkpoint) (p : String) :
    mark_processed norm (mark_processed norm cp p) p = mark_processed norm cp p ∧
    (is_processed norm cp p = true → mark_processed norm cp p = cp) ∧
    (is_processed norm cp p = false →
        (mark_processed norm cp p).processed_file_paths = cp.processed_file_paths ++ [p]) ∧
    ((cp.processed_file_paths.map norm).Nodup ∧
        cp.processed_files = cp.processed_file_paths.length →
      ((mark_processed norm cp p).processed_file_paths.map norm).Nodup ∧
      (mark_processed norm cp p).processed_files
        = ((mark_processed norm cp p).processed_file_paths.map norm).dedup.length) := by
  refine ⟨?_, ?_, ?_, ?_⟩
  · have h := is_processed_mark_processed norm cp p
    conv_lhs => rw [mark_processed]
    rw [if_pos h]
  · intro h
    unfold mark_processed
    rw [if_pos h]
  · intro h
    unfold mark_processed
    rw [if_neg (by simp [h])]
  · rintro ⟨hnd, hlen⟩
    by_cases h : is_processed norm cp p
    · unfold mark_processed
      rw [if_pos h]
      refine ⟨hnd, ?_⟩
      rw [List.dedup_eq_self.mpr hnd, List.length_map]
      exact hlen
    · unfold mark_processed
      rw [if_neg h]
      have hnotmem : norm p ∉ cp.processed_file_paths.map norm := by
        intro hmem
        exact h ((is_processed_iff norm cp p).mpr hmem)
      have hnd' : ((cp.processed_file_paths ++ [p]).map norm).Nodup := by
        rw [List.map_append]
        simp only [List.map_cons, List.map_nil]
        rw [List.nodup_append]
        refine ⟨hnd, List.nodup_singleton _, ?_⟩
        intro a ha hb
        simp only [List.mem_singleton] at hb
        subst hb
        exact hnotmem ha
      refine ⟨hnd', ?_⟩
      rw [List.dedup_eq_self.mpr hnd', List.length_map]

/-- Witness for `mark_processed_idempotent` at a concrete checkpoint. -/
theorem mark_processed_idempotent_witness :
    mark_processed id (initialize_checkpoint "t") "a"
      = { initialize_checkpoint "t" with
          processed_file_paths := ["a"], processed_files := 1 } ∧
    (mark_processed id (initialize_checkpoint "t") "a").processed_files
      = ((mark_processed id (initialize_checkpoint "t")
            "a").processed_file_paths.map id).dedup.length := by
  constructor
  · rfl
  · exact ((mark_processed_idempotent id (initialize_checkpoint "t") "a").2.2.2
      ⟨List.nodup_nil, rfl⟩).2

/-- C8: `mark_failed` appends exactly one `{path, error, timestamp}`
entry to `failed_files` and leaves every other checkpoint field —
including `processed_file_paths` — unchanged; consequently the remaining
list is unchanged, and a failed file that was in the workload and not
processed is still contained in a subsequent remaining list. -/
theorem mark_failed_frame (cp : Checkpoint) (p err ts : String) :
    (mark_failed cp p err ts).failed_files = cp.failed_files ++ [⟨p, err, ts⟩] ∧
    (mark_failed cp p err ts).processed_file_paths = cp.processed_file_paths ∧
    (mark_failed cp p err ts).processed_files = cp.processed_files ∧
    (mark_failed cp p err ts).total_files = cp.total_files ∧
    (mark_failed cp p err ts).statistics = cp.statistics ∧
    (mark_failed cp p err ts).phase = cp.phase ∧
    (mark_failed cp p err ts).last_updated = cp.last_updated ∧
    (∀ norm all_files, get_remaining_files norm (mark_failed cp p err ts) all_files
        = get_remaining_files norm cp all_files) ∧
    (∀ norm all_files, p ∈ all_files → is_processed norm cp p = false →
        p ∈ get_remaining_files norm (mark_failed cp p err ts) all_files) := by
  refine ⟨rfl, rfl, rfl, rfl, rfl, rfl, rfl, fun norm all_files => rfl, ?_⟩
  intro norm all_files hmem hproc
  rw [mem_remaining_iff]
  refine ⟨hmem, ?_⟩
  intro hn
  have : is_processed norm cp p = true := (is_processed_iff norm cp p).mpr hn
  rw [hproc] at this
  exact Bool.false_ne_true this

/-- Witness for `mark_failed_frame`: a failed, unprocessed file stays in
the remaining list. -/
theorem mark_failed_frame_witness :
    "a" ∈ get_remaining_files id
        (mark_failed (initialize_checkpoint "t") "a" "boom" "t1") ["a"] :=
  (mark_failed_frame (initialize_checkpoint "t") "a" "boom" "t1").2.2.2.2.2.2.2.2
    id ["a"] (by simp) rfl

/-- C9 (counterexample): on a file that exists but cannot be parsed,
`load_checkpoint` does not fail with a surfaced error: the handler
catches the parse exception, logs it, and silently returns a freshly
initialized checkpoint (and a missing file likewise yields a fresh
checkpoint rather than a `NotFound` report). -/
theorem load_checkpoint_corrupt_counterexample :
    load_checkpoint (initialize_checkpoint "t0") (FileState.corrupt "not json") "t1"
      = { returned := initialize_checkpoint "t1"
          memData := initialize_checkpoint "t0", raised := none } := rfl

/-- C9 (amended): `load_checkpoint` never raises; a parseable file is
stored and returned, while a corrupt file or a missing file silently
yields a freshly initialized checkpoint (the in-memory data is left as
it was). -/
theorem load_checkpoint_semantics (cur : Checkpoint) (file : FileState) (now : String) :
    (load_checkpoint cur file now).raised = none ∧
    (∀ raw, file = FileState.corrupt raw →
        load_checkpoint cur file now
          = { returned := initialize_checkpoint now, memData := cur, raised := none }) ∧
    (file = FileState.missing →
        load_checkpoint cur file now
          = { returned := initialize_checkpoint now, memData := cur, raised := none }) ∧
    (∀ data, file = FileState.valid data →
        load_checkpoint cur file now
          = { returned := data, memData := data, raised := none }) := by
  refine ⟨?_, ?_, ?_, ?_⟩
  · cases file <;> rfl
  · rintro raw rfl; rfl
  · rintro rfl; rfl
  · rintro data rfl; rfl

/-- Witness for `load_checkpoint_semantics` at a concrete corrupt
file. -/
theorem load_checkpoint_semantics_witness :
    load_checkpoint (initialize_checkpoint "t0") (FileState.corrupt "x") "t1"
      = { returned := initialize_checkpoint "t1"
          memData := initialize_checkpoint "t0", raised := none } :=
  (load_checkpoint_semantics (initialize_checkpoint "t0")
      (FileState.corrupt "x") "t1").2.1 "x" rfl

/-! ### Retry loop lemmas -/

lemma retry_loop_length_le (f : Nat → UploadStats) :
    ∀ (L : List Nat) (t : RetryTrace), retry_loop f L = some t →
      t.attempts.length ≤ L.length := by
  intro L
  induction L with
  | nil => intro t h; simp [retry_loop] at h
  | cons a rest ih =>
    intro t h
    rw [retry_loop] at h
    by_cases hs : attempt_succeeded (f a) = true
    · rw [if_pos hs] at h
      cases h
      simp
    · rw [if_neg hs] at h
      cases hr : retry_loop f rest with
      | none =>
        rw [hr] at h
        cases h
        simp
      | some t' =>
        rw [hr] at h
        cases h
        simpa using Nat.succ_le_succ (ih t' hr)

lemma retry_loop_first_success (f : Nat → UploadStats) (a : Nat) (rest : List Nat)
    (hs : attempt_succeeded (f a) = true) :
    retry_loop f (a :: rest)
      = some { result := f a, attempts := [a]
               sleeps := if a = 0 then [] else [a * 2] } := by
  rw [retry_loop, if_pos hs]

lemma retry_loop_all_fail_range' (f : Nat → UploadStats) :
    ∀ (n s : Nat), 0 < s → 0 < n →
      (∀ x ∈ List.range' s n, attempt_succeeded (f x) = false) →
      retry_loop f (List.range' s n)
        = some { result := f (s + n - 1), attempts := List.range' s n
                 sleeps := (List.range' s n).map (· * 2) } := by
  intro n
  induction n with
  | zero => intro s _ hn _; exact absurd hn (lt_irrefl 0)
  | succ m ih =>
    intro s hs _ hf
    have hfs : attempt_succeeded (f s) = false :=
      hf s (by rw [List.mem_range'_1]; omega)
    have hsne : s ≠ 0 := Nat.pos_iff_ne_zero.mp hs
    rw [show List.range' s (m + 1) = s :: List.range' (s + 1) m from rfl]
    rw [retry_loop, if_neg (by rw [hfs]; exact Bool.false_ne_true)]
    cases m with
    | zero =>
      rw [show retry_loop f (List.range' (s + 1) 0) = none from rfl]
      simp [hsne]
    | succ k =>
      rw [ih (s + 1) (Nat.succ_pos s) (Nat.succ_pos k)
        (fun x hx => hf x (by
          rw [List.mem_range'_1] at hx ⊢
          omega))]
      have harith : s + 1 + (k + 1) - 1 = s + (k + 1 + 1) - 1 := by omega
      simp [harith, hsne]

/-- C5: partial success stops the retry loop at once (a batch with at
least one uploaded item is never retried and its sleeps are empty); a
batch reporting zero successes on every attempt is tried exactly
`max_retries` times total, the delays slept being
`attempt_number * 2` seconds before each retry (none before the first
attempt, then linearly increasing); and no call ever makes more than
`max_retries` attempts. -/
theorem retry_with_backoff_policy (f : Nat → UploadStats) (max_retries : Nat)
    (t : RetryTrace) :
    (0 < (f 0).uploaded → 0 < max_retries →
        retry_with_backoff f max_retries
          = some { result := f 0, attempts := [0], sleeps := [] }) ∧
    ((∀ a, a < max_retries → attempt_succeeded (f a) = false) → 0 < max_retries →
        retry_with_backoff f max_retries
          = some { result := f (max_retries - 1), attempts := List.range max_retries
                   sleeps := ((List.range max_retries).drop 1).map (· * 2) }) ∧
    (retry_with_backoff f max_retries = some t → t.attempts.length ≤ max_retries) := by
  refine ⟨?_, ?_, ?_⟩
  · intro hup hmr
    obtain ⟨n, rfl⟩ : ∃ n, max_retries = n + 1 :=
      ⟨max_retries - 1, (Nat.succ_pred_eq_of_pos hmr).symm⟩
    unfold retry_with_backoff
    rw [List.range_eq_range',
      show List.range' 0 (n + 1) = 0 :: List.range' 1 n from rfl,
      retry_loop_first_success f 0 _ (by simp [attempt_succeeded, hup])]
    simp
  · intro hf hmr
    obtain ⟨n, rfl⟩ : ∃ n, max_retries = n + 1 :=
      ⟨max_retries - 1, (Nat.succ_pred_eq_of_pos hmr).symm⟩
    unfold retry_with_backoff
    rw [List.range_eq_range',
      show List.range' 0 (n + 1) = 0 :: List.range' 1 n from rfl]
    have h0 : attempt_succeeded (f 0) = false := hf 0 (Nat.succ_pos n)
    rw [retry_loop, if_neg (by rw [h0]; exact Bool.false_ne_true)]
    cases n with
    | zero =>
      rw [show retry_loop f (List.range' 1 0) = none from rfl]
      simp [List.range_eq_range']
    | succ k =>
      rw [retry_loop_all_fail_range' f (k + 1) 1 Nat.one_pos (Nat.succ_pos k)
        (fun x hx => hf x (by
          rw [List.mem_range'_1] at hx
          omega))]
      have hdrop : (List.range (k + 1 + 1)).drop 1 = List.range' 1 (k + 1) := by
        rw [List.range_eq_range',
          show List.range' 0 (k + 1 + 1) = 0 :: List.range' 1 (k + 1) from rfl]
        rfl
      simp [List.range_eq_range', hdrop]
  · exact fun h => by
      have := retry_loop_length_le f (List.range max_retries) t h
      simpa using this

/-- Witness for `retry_with_backoff_policy`: three total failures make
exactly three attempts with backoff sleeps of 2 and 4 seconds. -/
theorem retry_with_backoff_policy_witness :
    retry_with_backoff
        (fun _ => { total_articles := 2, uploaded := 0, failed := 2
                    success_rate := 0, error := some "e" }) 3
      = some { result := { total_articles := 2, uploaded := 0, failed := 2
                           success_rate := 0, error := some "e" }
               attempts := List.range 3
               sleeps := ((List.range 3).drop 1).map (· * 2) } :=
  (retry_with_backoff_policy
      (fun _ => { total_articles := 2, uploaded := 0, failed := 2
                  success_rate := 0, error := some "e" }) 3
      { result := { total_articles := 2, uploaded := 0, failed := 2
                    success_rate := 0, error := some "e" }
        attempts := [], sleeps := [] }).2.1
    (by decide) (by decide)

/-! ### Upload loop lemmas -/

lemma record_batch_outcome_last (cp : UploadCheckpoint) (b : Int) (stats : UploadStats)
    (ts : String) :
    (record_batch_outcome cp b stats ts).last_successful_batch
      = if 0 < stats.uploaded then b else cp.last_successful_batch := by
  unfold record_batch_outcome
  by_cases h : 0 < stats.uploaded <;> simp [h]

lemma upload_loop_mono (max_retries : Nat) (f : Int → Nat → UploadStats) (ts : String) :
    ∀ (n : Nat) (b : Int) (cp : UploadCheckpoint) (hist : List UploadCheckpoint)
      (cpF : UploadCheckpoint),
      cp.last_successful_batch < b →
      upload_loop max_retries f ts cp b n = some (hist, cpF) →
      List.Chain' (fun x y => x.last_successful_batch ≤ y.last_successful_batch)
        (cp :: hist) := by
  intro n
  induction n with
  | zero =>
    intro b cp hist cpF _ h
    simp only [upload_loop, Option.some.injEq, Prod.mk.injEq] at h
    obtain ⟨h1, _⟩ := h
    subst h1
    exact List.chain'_singleton cp
  | succ n ih =>
    intro b cp hist cpF hlt h
    rw [upload_loop] at h
    cases hr : retry_with_backoff (f b) max_retries with
    | none => rw [hr] at h; cases h
    | some t =>
      rw [hr] at h
      dsimp only at h
      cases hl : upload_loop max_retries f ts (record_batch_outcome cp b t.result ts)
          (b + 1) n with
      | none =>
        rw [hl] at h
        exact Option.noConfusion h
      | some p =>
        obtain ⟨hist', cpF'⟩ := p
        simp only [hl, Option.some.injEq, Prod.mk.injEq] at h
        obtain ⟨h1, h2⟩ := h
        subst h1
        subst h2
        have hlast := record_batch_outcome_last cp b t.result ts
        have hlt' : (record_batch_outcome cp b t.result ts).last_successful_batch < b + 1 := by
          rw [hlast]
          by_cases hu : 0 < t.result.uploaded
          · rw [if_pos hu]; omega
          · rw [if_neg hu]; omega
        have hle : cp.last_successful_batch
            ≤ (record_batch_outcome cp b t.result ts).last_successful_batch := by
          rw [hlast]
          by_cases hu : 0 < t.result.uploaded
          · rw [if_pos hu]; omega
          · rw [if_neg hu]
        exact List.chain'_cons.mpr ⟨hle, ih (b + 1) _ hist' cpF' hlt' hl⟩

lemma upload_start_lt (resume : Bool) (loaded : Option UploadCheckpoint)
    (total_articles : Nat) (ts : String) :
    (upload_start resume loaded total_articles ts).1.last_successful_batch
      < (upload_start resume loaded total_articles ts).2 := by
  unfold upload_start
  cases resume with
  | false => simp [initialize_upload_checkpoint]
  | true =>
    cases loaded with
    | none => simp [initialize_upload_checkpoint]
    | some c => simp

/-- C4: the per-batch recording of `upload_in_batches` increments
`uploaded_articles` by the batch's reported success count, advances
`last_successful_batch` to the batch's index exactly when the success
count is positive, and appends the batch to `failed_batches` exactly
when it is zero; a resumed run starts at `last_successful_batch + 1`
and a fresh run at batch 0; and across any single execution,
`last_successful_batch` is monotonically non-decreasing along the
sequence of persisted checkpoints. -/
theorem upload_in_batches_checkpoint_invariants
    (total_articles batch_size max_retries : Nat) (f : Int → Nat → UploadStats)
    (resume : Bool) (loaded : Option UploadCheckpoint) (ts : String)
    (cp : UploadCheckpoint) (b : Int) (stats : UploadStats)
    (c : UploadCheckpoint) (run : UploadRun) :
    (record_batch_outcome cp b stats ts).uploaded_articles
        = cp.uploaded_articles + stats.uploaded ∧
    (0 < stats.uploaded →
        (record_batch_outcome cp b stats ts).last_successful_batch = b ∧
        (record_batch_outcome cp b stats ts).failed_batches = cp.failed_batches) ∧
    (stats.uploaded = 0 →
        (record_batch_outcome cp b stats ts).last_successful_batch
            = cp.last_successful_batch ∧
        (record_batch_outcome cp b stats ts).failed_batches
            = cp.failed_batches
              ++ [{ batch_num := b, error := stats.error.getD "Unknown error"
                    timestamp := ts }]) ∧
    (upload_in_batches total_articles batch_size max_retries f true (some c) ts
        = some run → run.start_batch = c.last_successful_batch + 1) ∧
    (upload_in_batches total_articles batch_size max_retries f false loaded ts
        = some run → run.start_batch = 0) ∧
    (upload_in_batches total_articles batch_size max_retries f resume loaded ts
        = some run →
      List.Chain' (fun x y => x.last_successful_batch ≤ y.last_successful_batch)
        (run.initial :: run.history)) := by
  refine ⟨?_, ?_, ?_, ?_, ?_, ?_⟩
  · unfold record_batch_outcome
    by_cases h : 0 < stats.uploaded <;> simp [h]
  · intro h
    unfold record_batch_outcome
    simp [h]
  · intro h
    unfold record_batch_outcome
    simp [h]
  · intro h
    unfold upload_in_batches at h
    by_cases hbs : batch_size = 0
    · rw [if_pos hbs] at h; cases h
    · rw [if_neg hbs] at h
      rw [Option.map_eq_some'] at h
      obtain ⟨r, _, hrun⟩ := h
      rw [← hrun]
      rfl
  · intro h
    unfold upload_in_batches at h
    by_cases hbs : batch_size = 0
    · rw [if_pos hbs] at h; cases h
    · rw [if_neg hbs] at h
      rw [Option.map_eq_some'] at h
      obtain ⟨r, _, hrun⟩ := h
      rw [← hrun]
      rfl
  · intro h
    unfold upload_in_batches at h
    by_cases hbs : batch_size = 0
    · rw [if_pos hbs] at h; cases h
    · rw [if_neg hbs] at h
      rw [Option.map_eq_some'] at h
      obtain ⟨r, hr, hrun⟩ := h
      obtain ⟨hist, cpF⟩ := r
      rw [← hrun]
      exact upload_loop_mono max_retries f ts _ _ _ hist cpF
        (upload_start_lt resume loaded total_articles ts) hr

/-- Witness for `upload_in_batches_checkpoint_invariants`: a resumed
call whose loaded checkpoint has `last_successful_batch = 1` starts at
batch 2, and the recording of a 3-success batch advances the
checkpoint's `last_successful_batch` to that batch's index. -/
theorem upload_in_batches_checkpoint_invariants_witness :
    (record_batch_outcome
        { total_articles := 5, uploaded_articles := 4, current_batch := 1
          last_successful_batch := 1, failed_batches := [], last_updated := "t"
          statistics := { successful_uploads := 4, failed_uploads := 1
                          batches_completed := 2, batches_failed := 0 } }
        2 { total_articles := 5, uploaded := 3, failed := 2
            success_rate := 60, error := none } "t").last_successful_batch = 2 ∧
    (UploadRun.start_batch
        { initial :=
            { total_articles := 5, uploaded_articles := 4, current_batch := 1
              last_successful_batch := 1, failed_batches := [], last_updated := "t"
              statistics := { successful_uploads := 4, failed_uploads := 1
                              batches_completed := 2, batches_failed := 0 } }
          start_batch := 2, total_batches := 0, history := []
          final :=
            { total_articles := 5, uploaded_articles := 4, current_batch := 1
              last_successful_batch := 1, failed_batches := [], last_updated := "t"
              statistics := { successful_uploads := 4, failed_uploads := 1
                              batches_completed := 2, batches_failed := 0 } } })
      = 1 + 1 := by
  constructor
  · exact ((upload_in_batches_checkpoint_invariants 0 2 1 (fun _ _ => ⟨0, 0, 0, 0, none⟩)
      true
      (some { total_articles := 5, uploaded_articles := 4, current_batch := 1
              last_successful_batch := 1, failed_batches := [], last_updated := "t"
              statistics := { successful_uploads := 4, failed_uploads := 1
                              batches_completed := 2, batches_failed := 0 } }) "t"
      { total_articles := 5, uploaded_articles := 4, current_batch := 1
        last_successful_batch := 1, failed_batches := [], last_updated := "t"
        statistics := { successful_uploads := 4, failed_uploads := 1
                        batches_completed := 2, batches_failed := 0 } }
      2 { total_articles := 5, uploaded := 3, failed := 2
          success_rate := 60, error := none }
      { total_articles := 5, uploaded_articles := 4, current_batch := 1
        last_successful_batch := 1, failed_batches := [], last_updated := "t"
        statistics := { successful_uploads := 4, failed_uploads := 1
                        batches_completed := 2, batches_failed := 0 } }
      { initial :=
          { total_articles := 5, uploaded_articles := 4, current_batch := 1
            last_successful_batch := 1, failed_batches := [], last_updated := "t"
            statistics := { successful_uploads := 4, failed_uploads := 1
                            batches_completed := 2, batches_failed := 0 } }
        start_batch := 2, total_batches := 0, history := []
        final :=
          { total_articles := 5, uploaded_articles := 4, current_batch := 1
            last_successful_batch := 1, failed_batches := [], last_updated := "t"
            statistics := { successful_uploads := 4, failed_uploads := 1
                            batches_completed := 2, batches_failed := 0 } } }).2.1
      (by decide)).1
  · exact (upload_in_batches_checkpoint_invariants 0 2 1 (fun _ _ => ⟨0, 0, 0, 0, none⟩)
      true
      (some { total_articles := 5, uploaded_articles := 4, current_batch := 1
              last_successful_batch := 1, failed_batches := [], last_updated := "t"
              statistics := { successful_uploads := 4, failed_uploads := 1
                              batches_completed := 2, batches_failed := 0 } }) "t"
      { total_articles := 5, uploaded_articles := 4, current_batch := 1
        last_successful_batch := 1, failed_batches := [], last_updated := "t"
        statistics := { successful_uploads := 4, failed_uploads := 1
                        batches_completed := 2, batches_failed := 0 } }
      2 { total_articles := 5, uploaded := 3, failed := 2
          success_rate := 60, error := none }
      { total_articles := 5, uploaded_articles := 4, current_batch := 1
        last_successful_batch := 1, failed_batches := [], last_updated := "t"
        statistics := { successful_uploads := 4, failed_uploads := 1
                        batches_completed := 2, batches_failed := 0 } }
      { initial :=
          { total_articles := 5, uploaded_articles := 4, current_batch := 1
            last_successful_batch := 1, failed_batches := [], last_updated := "t"
            statistics := { successful_uploads := 4, failed_uploads := 1
                            batches_completed := 2, batches_failed := 0 } }
        start_batch := 2, total_batches := 0, history := []
        final :=
          { total_articles := 5, uploaded_articles := 4, current_batch := 1
            last_successful_batch := 1, failed_batches := [], last_updated := "t"
            statistics := { successful_uploads := 4, failed_uploads := 1
                            batches_completed := 2, batches_failed := 0 } } }).2.2.2.1 rfl

/-- C10: a resumed `upload_in_batches` whose checkpoint file is missing
or unparsable (`_load_upload_checkpoint` returned `None`) does not
raise: it behaves exactly like a fresh run, starting at batch 0 with a
newly initialized checkpoint (`last_successful_batch = -1`,
`uploaded_articles = 0`, empty `failed_batches`). -/
theorem upload_resume_fallback_fresh (total_articles batch_size max_retries : Nat)
    (f : Int → Nat → UploadStats) (ts : String) (run : UploadRun) :
    upload_in_batches total_articles batch_size max_retries f true none ts
      = upload_in_batches total_articles batch_size max_retries f false none ts ∧
    (upload_in_batches total_articles batch_size max_retries f true none ts = some run →
        run.start_batch = 0 ∧
        run.initial = initialize_upload_checkpoint total_articles ts ∧
        run.initial.last_successful_batch = -1 ∧
        run.initial.uploaded_articles = 0 ∧
        run.initial.failed_batches = []) := by
  constructor
  · rfl
  · intro h
    unfold upload_in_batches at h
    by_cases hbs : batch_size = 0
    · rw [if_pos hbs] at h; cases h
    · rw [if_neg hbs] at h
      rw [Option.map_eq_some'] at h
      obtain ⟨r, _, hrun⟩ := h
      rw [← hrun]
      exact ⟨rfl, rfl, rfl, rfl, rfl⟩

/-- Witness for `upload_resume_fallback_fresh` at a concrete resumed
call with no loadable checkpoint. -/
theorem upload_resume_fallback_fresh_witness :
    (UploadRun.start_batch
        { initial := initialize_upload_checkpoint 0 "t", start_batch := 0
          total_batches := 0, history := []
          final := initialize_upload_checkpoint 0 "t" }) = 0 ∧
    ({ initial := initialize_upload_checkpoint 0 "t", start_batch := 0
       total_batches := 0, history := []
       final := initialize_upload_checkpoint 0 "t" } : UploadRun).initial
      = initialize_upload_checkpoint 0 "t" :=
  ⟨((upload_resume_fallback_fresh 0 2 1 (fun _ _ => ⟨0, 0, 0, 0, none⟩) "t"
      { initial := initialize_upload_checkpoint 0 "t", start_batch := 0
        total_batches := 0, history := []
        final := initialize_upload_checkpoint 0 "t" }).2 rfl).1,
   ((upload_resume_fallback_fresh 0 2 1 (fun _ _ => ⟨0, 0, 0, 0, none⟩) "t"
      { initial := initialize_upload_checkpoint 0 "t", start_batch := 0
        total_batches := 0, history := []
        final := initialize_upload_checkpoint 0 "t" }).2 rfl).2.1⟩

/-! ### Parse loop lemmas -/

lemma parse_step_paths_mono (norm : String → String) (outcome : String → FileOutcome)
    (ts : String) (st : ParseState) (f : String) (x : String)
    (h : x ∈ st.cp.processed_file_paths.map norm) :
    x ∈ (parse_step norm outcome ts st f).cp.processed_file_paths.map norm := by
  unfold parse_step
  cases houtcome : outcome f with
  | raised m => exact h
  | noArticles => exact mem_paths_mark_processed_mono norm st.cp f x h
  | articles recs =>
    by_cases hc : (st.files_processed + 1) % CHECKPOINT_SAVE_INTERVAL = 0 <;>
      simp only [hc, if_pos, if_neg, if_true, if_false, update_statistics] <;>
      exact mem_paths_mark_processed_mono norm st.cp f x h

lemma parse_step_adds (norm : String → String) (outcome : String → FileOutcome)
    (ts : String) (st : ParseState) (f : String)
    (hok : ∀ m, outcome f ≠ FileOutcome.raised m) :
    norm f ∈ (parse_step norm outcome ts st f).cp.processed_file_paths.map norm := by
  unfold parse_step
  cases houtcome : outcome f with
  | raised m => exact absurd houtcome (hok m)
  | noArticles => exact mem_paths_mark_processed_self norm st.cp f
  | articles recs =>
    by_cases hc : (st.files_processed + 1) % CHECKPOINT_SAVE_INTERVAL = 0 <;>
      simp only [hc, if_pos, if_neg, if_true, if_false, update_statistics] <;>
      exact mem_paths_mark_processed_self norm st.cp f

lemma parse_foldl_paths_mono (norm : String → String) (outcome : String → FileOutcome)
    (ts : String) :
    ∀ (L : List String) (st : ParseState) (x : String),
      x ∈ st.cp.processed_file_paths.map norm →
      x ∈ (L.foldl (parse_step norm outcome ts) st).cp.processed_file_paths.map norm := by
  intro L
  induction L with
  | nil => intro st x h; exact h
  | cons g rest ih =>
    intro st x h
    exact ih _ x (parse_step_paths_mono norm outcome ts st g x h)

lemma parse_foldl_adds (norm : String → String) (outcome : String → FileOutcome)
    (ts : String) :
    ∀ (L : List String) (st : ParseState) (f : String),
      f ∈ L → (∀ m, outcome f ≠ FileOutcome.raised m) →
      norm f ∈ (L.foldl (parse_step norm outcome ts) st).cp.processed_file_paths.map norm := by
  intro L
  induction L with
  | nil => intro st f hf _; exact absurd hf (List.not_mem_nil f)
  | cons g rest ih =>
    intro st f hf hok
    rcases List.mem_cons.mp hf with rfl | hf'
    · exact parse_foldl_paths_mono norm outcome ts rest _ _
        (parse_step_adds norm outcome ts st f hok)
    · exact ih _ f hf' hok

/-- `parse_phase` at `resume = false`, with the branch on the resume
flag reduced. -/
lemma parse_phase_fresh (norm : String → String) (outcome : String → FileOutcome)
    (loaded : Checkpoint) (all_files : List String) (ts : String) :
    parse_phase norm outcome loaded all_files false ts =
      (let cp := { initialize_checkpoint ts with
                   total_files := all_files.length, last_updated := ts }
       if all_files.isEmpty then
         { remaining := all_files, written := [], tracker := cp, files_processed := 0 }
       else
         let st := all_files.foldl (parse_step norm outcome ts) ⟨cp, [], 0⟩
         { remaining := all_files, written := st.written
           tracker :=
             { update_statistics st.cp (parse_stats_delta st.files_processed st.written) with
               last_updated := ts }
           files_processed := st.files_processed }) := rfl

/-- `parse_phase` at `resume = true`, with the branch on the resume flag
reduced. -/
lemma parse_phase_resume (norm : String → String) (outcome : String → FileOutcome)
    (loaded : Checkpoint) (all_files : List String) (ts : String) :
    parse_phase norm outcome loaded all_files true ts =
      (let remaining := get_remaining_files norm loaded all_files
       let cp := { loaded with total_files := all_files.length, last_updated := ts }
       if remaining.isEmpty then
         { remaining := remaining, written := [], tracker := cp, files_processed := 0 }
       else
         let st := remaining.foldl (parse_step norm outcome ts) ⟨cp, [], 0⟩
         { remaining := remaining, written := st.written
           tracker :=
             { update_statistics st.cp (parse_stats_delta st.files_processed st.written) with
               last_updated := ts }
           files_processed := st.files_processed }) := rfl

/-- Every file of the workload of a fresh (non-resume) `parse_phase` run
in which no file raised ends up processed in the final checkpoint, under
normalization. -/
lemma parse_phase_complete (norm : String → String) (outcome : String → FileOutcome)
    (loaded : Checkpoint) (all_files : List String) (ts : String) (f : String)
    (hf : f ∈ all_files) (hok : ∀ m, outcome f ≠ FileOutcome.raised m) :
    norm f ∈ (parse_phase norm outcome loaded all_files false
        ts).tracker.processed_file_paths.map norm := by
  rw [parse_phase_fresh]
  dsimp only
  by_cases hE : all_files.isEmpty
  · exact absurd hf (by rw [List.isEmpty_iff] at hE; rw [hE]; exact List.not_mem_nil f)
  · rw [if_neg hE]
    simp only [update_statistics]
    exact parse_foldl_adds norm outcome ts all_files _ f hf hok

/-- C6: after a fresh `parse_phase` run over a workload in which no file
raised, running `parse_phase` again with `resume = true` on the
unchanged workload computes an empty remaining list, appends no records
to the output file, and processes zero files. -/
theorem parse_phase_idempotent_resume (norm : String → String)
    (outcome : String → FileOutcome) (loaded : Checkpoint) (all_files : List String)
    (ts1 ts2 : String)
    (hok : ∀ f ∈ all_files, ∀ m, outcome f ≠ FileOutcome.raised m) :
    (parse_phase norm outcome
        (parse_phase norm outcome loaded all_files false ts1).tracker
        all_files true ts2).remaining = [] ∧
    (parse_phase norm outcome
        (parse_phase norm outcome loaded all_files false ts1).tracker
        all_files true ts2).written = [] ∧
    (parse_phase norm outcome
        (parse_phase norm outcome loaded all_files false ts1).tracker
        all_files true ts2).files_processed = 0 := by
  have hrem : get_remaining_files norm
      (parse_phase norm outcome loaded all_files false ts1).tracker all_files = [] := by
    rw [List.eq_nil_iff_forall_not_mem]
    intro f hf
    rw [mem_remaining_iff] at hf
    exact hf.2 (parse_phase_complete norm outcome loaded all_files ts1 f hf.1
      (hok f hf.1))
  refine ⟨?_, ?_, ?_⟩ <;>
    · rw [parse_phase_resume]
      dsimp only
      rw [hrem]
      rfl

/-- Witness for `parse_phase_idempotent_resume` on a one-file workload
whose processing succeeds. -/
theorem parse_phase_idempotent_resume_witness :
    (parse_phase id (fun _ => FileOutcome.articles [⟨1, 2, 3⟩])
        (parse_phase id (fun _ => FileOutcome.articles [⟨1, 2, 3⟩])
          (initialize_checkpoint "t0") ["a"] false "t1").tracker
        ["a"] true "t2").remaining = [] ∧
    (parse_phase id (fun _ => FileOutcome.articles [⟨1, 2, 3⟩])
        (parse_phase id (fun _ => FileOutcome.articles [⟨1, 2, 3⟩])
          (initialize_checkpoint "t0") ["a"] false "t1").tracker
        ["a"] true "t2").written = [] :=
  ⟨(parse_phase_idempotent_resume id (fun _ => FileOutcome.articles [⟨1, 2, 3⟩])
      (initialize_checkpoint "t0") ["a"] "t1" "t2"
      (fun _ _ _ h => FileOutcome.noConfusion h)).1,
   (parse_phase_idempotent_resume id (fun _ => FileOutcome.articles [⟨1, 2, 3⟩])
      (initialize_checkpoint "t0") ["a"] "t1" "t2"
      (fun _ _ _ h => FileOutcome.noConfusion h)).2.1⟩

end DLRScanner
